import Mathlib

/-!
Verification of the nutrient-document-engine MCP adapter
(src/src/nutrient-document-engine/index.ts) against its specification.

The adapter is a stateless request/response translator. Each handler is
embedded as a pure Lean function that takes a backend oracle and returns
the list of backend calls it issued together with its result. JavaScript
string truthiness (the empty string is falsy) and the first-occurrence
semantics of String.prototype.replace are modelled explicitly.
-/

namespace NDE

/-- Opaque structured JSON value, used for the free-form annotation
content payload which the adapter never inspects. -/
inductive JVal where
  | null : JVal
  | bool : Bool → JVal
  | num : Int → JVal
  | str : String → JVal
  | arr : List JVal → JVal
  | obj : List (String × JVal) → JVal

/-- Attributes of a document as returned by the backend listing and
get-document endpoints: attributes.title (may be missing or empty) and
attributes.page_count. -/
structure DocAttrs where
  title : Option String
  page_count : Int

/-- A backend document object: id plus attributes. -/
structure Document where
  id : String
  attributes : DocAttrs

/-- Attributes of a layer object returned by the layers endpoint. -/
structure LayerAttrs where
  name : String
  visible : Bool

/-- A backend layer object. -/
structure Layer where
  id : String
  attributes : LayerAttrs

/-- Attributes of an annotation object: type, page and content. -/
structure AnnotAttrs where
  type : String
  page : Int
  content : JVal

/-- A backend annotation object. -/
structure Annot where
  id : String
  attributes : AnnotAttrs

/-- Response of GET /api/documents: data holds the document array,
next_page models response.data.meta.pagination.next_page. -/
structure ListResponse where
  data : List Document
  next_page : Option String

/-- The JSON-API envelope data field sent when creating an annotation:
type is the fixed string "annotations", attributes carry the
caller-supplied type, page and content verbatim. -/
structure AnnotEnvelope where
  type : String
  attributes : AnnotAttrs

/-- POST body for the per-document annotation endpoint. -/
structure AnnotBody where
  data : AnnotEnvelope

/-- The annotation object in the create response; only its id is read. -/
structure CreatedAnnot where
  id : String

/-- One outbound HTTP call, recorded in the order issued.
listDocuments carries the page query parameter and the filter query,
getDocument, getLayers and getAnnotations carry the document id of their
path, createAnnot carries the document id and full POST body. -/
inductive BackendCall where
  | listDocuments : Option String → Option String → BackendCall
  | getDocument : String → BackendCall
  | getLayers : String → BackendCall
  | getAnnotations : String → BackendCall
  | createAnnot : String → AnnotBody → BackendCall

/-- The backend oracle: one function per REST endpoint the adapter uses.
An error value models any HTTP-call failure (network, auth, error status
or malformed payload), which the adapter catches uniformly. -/
structure Backend where
  listDocuments : Option String → Option String → Except Unit ListResponse
  getDocument : String → Except Unit Document
  getLayers : String → Except Unit (List Layer)
  getAnnotations : String → Except Unit (List Annot)
  createAnnot : String → AnnotBody → Except Unit CreatedAnnot

/-- JavaScript a || b on a possibly-missing string: the fallback is used
when the string is absent or empty (both are falsy). -/
def jsOr (a : Option String) (b : String) : String :=
  match a with
  | some s => if s = "" then b else s
  | none => b

/-- JavaScript x || undefined on a possibly-missing string: an absent or
empty string becomes undefined, anything else passes through. -/
def jsOrUndef (a : Option String) : Option String :=
  match a with
  | some s => if s = "" then none else some s
  | none => none

/-- Removes the first occurrence of pat from the character list,
scanning left to right; the list is unchanged when pat never occurs.
This is the semantics of JavaScript String.prototype.replace with a
string pattern and an empty replacement. -/
def removeOnce (pat : List Char) : List Char → List Char
  | [] => []
  | c :: cs =>
    if pat.isPrefixOf (c :: cs) then (c :: cs).drop pat.length
    else c :: removeOnce pat cs

/-- JavaScript s.replace(pat, "") for a string pattern: removes the
first occurrence of pat anywhere in s. -/
def jsReplaceFirst (s pat : String) : String :=
  String.mk (removeOnce pat.data s.data)

/-- The fixed resource URI scheme of the adapter. -/
def uriScheme : String := "nutrient-document-engine:///"

/-- Line 85 of the source: the document id is computed from the request
uri by uri.replace(uriScheme, ""), with no validation or decoding. -/
def documentIdOf (uri : String) : String :=
  jsReplaceFirst uri uriScheme

/-- Display name of a document, as computed at lines 72 and 196 of the
source: attributes.title falling back to Document id when the title is
absent or empty. -/
def displayName (doc : Document) : String :=
  jsOr doc.attributes.title ("Document " ++ doc.id)

/-- A resource descriptor returned by the list-resources handler. -/
structure Resource where
  uri : String
  mimeType : String
  name : String

/-- Result of the list-resources handler. -/
structure ListResourcesResult where
  resources : List Resource
  nextCursor : Option String

/-- The mapping applied to each listed document (lines 69 to 73). -/
def resourceOf (doc : Document) : Resource :=
  { uri := uriScheme ++ doc.id
    mimeType := "application/pdf"
    name := displayName doc }

/-- Line 61 to 63 of the source: the page parameter is set from the
request cursor only when the cursor is truthy, so an absent or empty
cursor yields no page parameter. -/
def pageParam (cursor : Option String) : Option String :=
  jsOrUndef cursor

/-- The list-resources handler (lines 57 to 80): one GET on the listing
endpoint with the truthy cursor as page parameter; on success maps each
document to a resource and takes nextCursor from the pagination
metadata through x || undefined; on failure throws a generic error. -/
def listResources (b : Backend) (cursor : Option String) :
    List BackendCall × Except String ListResourcesResult :=
  match b.listDocuments (pageParam cursor) none with
  | Except.ok resp =>
      ([BackendCall.listDocuments (pageParam cursor) none],
       Except.ok
         { resources := resp.data.map resourceOf
           nextCursor := jsOrUndef resp.next_page })
  | Except.error _ =>
      ([BackendCall.listDocuments (pageParam cursor) none],
       Except.error "Failed to list documents")

/-- One layer entry of the compiled document information. -/
structure LayerInfo where
  id : String
  name : String
  visible : Bool

/-- One annotation entry of the compiled document information. -/
structure AnnotInfo where
  id : String
  type : String
  page : Int
  content : JVal

/-- The compiled documentInfo object of the read-resource handler
(lines 100 to 115); its pretty-printed JSON serialization is abstracted
as this structured value. -/
structure DocumentInfo where
  id : String
  title : Option String
  pageCount : Int
  layers : List LayerInfo
  annotations : List AnnotInfo

/-- One contents entry of the read-resource result (lines 118 to 124). -/
structure ReadContent where
  uri : String
  mimeType : String
  info : DocumentInfo

/-- Result of the read-resource handler. -/
structure ReadResult where
  contents : List ReadContent

/-- The read-resource handler (lines 83 to 130): strips the scheme via
replace, then performs three sequential backend calls; the first
failure aborts the whole try block, and the catch rethrows the generic
error, so later calls are not issued and no partial result escapes. -/
def readResource (b : Backend) (uri : String) :
    List BackendCall × Except String ReadResult :=
  match b.getDocument (documentIdOf uri) with
  | Except.error _ =>
      ([BackendCall.getDocument (documentIdOf uri)],
       Except.error "Failed to read document")
  | Except.ok document =>
    match b.getLayers (documentIdOf uri) with
    | Except.error _ =>
        ([BackendCall.getDocument (documentIdOf uri),
          BackendCall.getLayers (documentIdOf uri)],
         Except.error "Failed to read document")
    | Except.ok layers =>
      match b.getAnnotations (documentIdOf uri) with
      | Except.error _ =>
          ([BackendCall.getDocument (documentIdOf uri),
            BackendCall.getLayers (documentIdOf uri),
            BackendCall.getAnnotations (documentIdOf uri)],
           Except.error "Failed to read document")
      | Except.ok annots =>
          ([BackendCall.getDocument (documentIdOf uri),
            BackendCall.getLayers (documentIdOf uri),
            BackendCall.getAnnotations (documentIdOf uri)],
           Except.ok
             { contents :=
                 [{ uri := uri
                    mimeType := "application/json"
                    info :=
                      { id := document.id
                        title := document.attributes.title
                        pageCount := document.attributes.page_count
                        layers := layers.map (fun layer =>
                          { id := layer.id
                            name := layer.attributes.name
                            visible := layer.attributes.visible })
                        annotations := annots.map (fun a =>
                          { id := a.id
                            type := a.attributes.type
                            page := a.attributes.page
                            content := a.attributes.content }) } }] })

/-- The tool arguments object, restricted to the fields the two tool
branches read. query models arguments.query for search; documentId,
type, page and content model the fields destructured by the
create-annotation branch, of arbitrary value since the source performs
no validation on them. -/
structure ToolArguments where
  query : Option String
  documentId : String
  type : String
  page : Int
  content : JVal

/-- One text content block of a tool result. -/
structure TextContent where
  type : String
  text : String

/-- A call-tool result: content blocks plus the isError flag. -/
structure ToolResult where
  content : List TextContent
  isError : Bool

/-- The fixed apology text of the search failure branch (line 214). -/
def searchFailText : String :=
  "Failed to search documents. Please try again."

/-- The fixed apology text of the create failure branch (line 252). -/
def annotFailText : String :=
  "Failed to create annotation. Please check your inputs and try again."

/-- One search result line (lines 195 to 197). -/
def searchLine (doc : Document) : String :=
  displayName doc ++ " (ID: " ++ doc.id ++ ")"

/-- The joined document list of the search success text (line 197). -/
def documentList (docs : List Document) : String :=
  String.intercalate "\n" (docs.map searchLine)

/-- The POST body built by the create-annotation branch
(lines 224 to 233). -/
def annotBody (a : ToolArguments) : AnnotBody :=
  { data :=
      { type := "annotations"
        attributes :=
          { type := a.type, page := a.page, content := a.content } } }

/-- The call-tool handler (lines 182 to 261). The search branch issues
one listing call with the filter query (possibly absent) and never
throws: success and failure both return a normal result, failure with
the isError flag and a fixed apology text. The create-annotation branch
likewise; when the arguments object is missing, the destructuring at
line 222 throws inside the try block and the catch yields the same
flagged failure without a backend call. Any other tool name throws
Tool not found with no backend call. -/
def callTool (b : Backend) (name : String) (args : Option ToolArguments) :
    List BackendCall × Except String ToolResult :=
  if name = "search" then
    match b.listDocuments none (args.bind ToolArguments.query) with
    | Except.ok resp =>
        ([BackendCall.listDocuments none (args.bind ToolArguments.query)],
         Except.ok
           { content :=
               [{ type := "text"
                  text := "Found " ++ toString resp.data.length ++
                    " documents:\n" ++ documentList resp.data }]
             isError := false })
    | Except.error _ =>
        ([BackendCall.listDocuments none (args.bind ToolArguments.query)],
         Except.ok
           { content := [{ type := "text", text := searchFailText }]
             isError := true })
  else if name = "create_annotation" then
    match args with
    | none =>
        ([], Except.ok
          { content := [{ type := "text", text := annotFailText }]
            isError := true })
    | some a =>
      match b.createAnnot a.documentId (annotBody a) with
      | Except.ok ann =>
          ([BackendCall.createAnnot a.documentId (annotBody a)],
           Except.ok
             { content :=
                 [{ type := "text"
                    text := "Successfully created " ++ a.type ++
                      " annotation with ID: " ++ ann.id }]
               isError := false })
      | Except.error _ =>
          ([BackendCall.createAnnot a.documentId (annotBody a)],
           Except.ok
             { content := [{ type := "text", text := annotFailText }]
               isError := true })
  else
    ([], Except.error "Tool not found")

/-- Whether an Except value is a success. -/
def exceptIsOk {ε α : Type} : Except ε α → Bool
  | Except.ok _ => true
  | Except.error _ => false

/-- The three read-resource backend calls in source order, all built
from the extracted document id. -/
def fullReadCalls (uri : String) : List BackendCall :=
  [BackendCall.getDocument (documentIdOf uri),
   BackendCall.getLayers (documentIdOf uri),
   BackendCall.getAnnotations (documentIdOf uri)]

/-- The document id a backend call addresses, when it has one. -/
def callDocId : BackendCall → Option String
  | BackendCall.listDocuments _ _ => none
  | BackendCall.getDocument i => some i
  | BackendCall.getLayers i => some i
  | BackendCall.getAnnotations i => some i
  | BackendCall.createAnnot i _ => some i

/-- Modelled from the spec wording of claim C3: the uri with the fixed
prefix stripped, read as removing the scheme only when the uri begins
with it and leaving the uri unchanged otherwise. Kept separate from
documentIdOf, which embeds the source, for comparison. -/
def claimedStripOfUri (uri : String) : String :=
  if uriScheme.data.isPrefixOf uri.data then
    String.mk (uri.data.drop uriScheme.data.length)
  else uri

/-! Concrete fixtures used by witnesses and counterexamples. -/

/-- A titled sample document. -/
def sampleDoc : Document :=
  { id := "doc1", attributes := { title := some "Report", page_count := 3 } }

/-- A sample document with no title. -/
def untitledDoc : Document :=
  { id := "doc2", attributes := { title := none, page_count := 1 } }

/-- A backend on which every endpoint succeeds with fixed data. -/
def okBackend : Backend :=
  { listDocuments := fun _ _ =>
      Except.ok { data := [sampleDoc, untitledDoc], next_page := some "p2" }
    getDocument := fun _ => Except.ok sampleDoc
    getLayers := fun _ => Except.ok []
    getAnnotations := fun _ => Except.ok []
    createAnnot := fun _ _ => Except.ok { id := "ann1" } }

/-- A backend on which every endpoint fails. -/
def failBackend : Backend :=
  { listDocuments := fun _ _ => Except.error ()
    getDocument := fun _ => Except.error ()
    getLayers := fun _ => Except.error ()
    getAnnotations := fun _ => Except.error ()
    createAnnot := fun _ _ => Except.error () }

/-- A backend whose listing succeeds with no documents and an empty
next-page token. -/
def emptyTokenBackend : Backend :=
  { failBackend with
    listDocuments := fun _ _ =>
      Except.ok { data := [], next_page := some "" } }

/-- A backend whose listing returns two documents and no next page. -/
def twoDocsBackend : Backend :=
  { failBackend with
    listDocuments := fun _ _ =>
      Except.ok { data := [sampleDoc, untitledDoc], next_page := none } }

/-- When pat begins the list, removing its first occurrence is exactly
dropping its length. -/
theorem removeOnce_of_isPrefixOf (pat l : List Char)
    (h : pat.isPrefixOf l = true) : removeOnce pat l = l.drop pat.length := by
  cases l with
  | nil =>
    cases pat with
    | nil => rfl
    | cons c cs => simp [List.isPrefixOf] at h
  | cons c cs => simp [removeOnce, h]

/-- C1: every read-resource invocation issues backend calls drawn, in
order, from the three-call sequence metadata, layers, annotations; on
success all three are issued, and any failure aborts with the generic
error Failed to read document and no partial result. -/
theorem read_resource_three_calls
    (b : Backend) (uri : String) :
    (readResource b uri).fst <+: fullReadCalls uri ∧
    (exceptIsOk (readResource b uri).snd = true →
      (readResource b uri).fst = fullReadCalls uri) ∧
    (exceptIsOk (readResource b uri).snd = false →
      (readResource b uri).snd = Except.error "Failed to read document") := by
  cases hd : b.getDocument (documentIdOf uri) with
  | error e =>
    refine ⟨?_, ?_, ?_⟩
    · simp only [readResource, hd, fullReadCalls]
      exact ⟨[BackendCall.getLayers (documentIdOf uri),
              BackendCall.getAnnotations (documentIdOf uri)], rfl⟩
    · simp [readResource, hd, fullReadCalls, exceptIsOk]
    · intro _
      simp [readResource, hd]
  | ok document =>
    cases hl : b.getLayers (documentIdOf uri) with
    | error e =>
      refine ⟨?_, ?_, ?_⟩
      · simp only [readResource, hd, hl, fullReadCalls]
        exact ⟨[BackendCall.getAnnotations (documentIdOf uri)], rfl⟩
      · simp [readResource, hd, hl, fullReadCalls, exceptIsOk]
      · intro _
        simp [readResource, hd, hl]
    | ok layers =>
      cases ha : b.getAnnotations (documentIdOf uri) with
      | error e =>
        refine ⟨?_, ?_, ?_⟩
        · simp only [readResource, hd, hl, ha, fullReadCalls]
          exact ⟨[], by simp⟩
        · simp [readResource, hd, hl, ha, fullReadCalls, exceptIsOk]
        · intro _
          simp [readResource, hd, hl, ha]
      | ok annots =>
        refine ⟨?_, ?_, ?_⟩
        · simp only [readResource, hd, hl, ha, fullReadCalls]
          exact ⟨[], by simp⟩
        · simp [readResource, hd, hl, ha, fullReadCalls, exceptIsOk]
        · intro hfalse
          simp [readResource, hd, hl, ha, exceptIsOk] at hfalse

/-- C1 witness: the theorem evaluated at a concrete backend and uri. -/
theorem read_resource_three_calls_witness :
    (readResource okBackend "nutrient-document-engine:///doc1").fst <+:
      fullReadCalls "nutrient-document-engine:///doc1" ∧
    (readResource okBackend "nutrient-document-engine:///doc1").fst =
      fullReadCalls "nutrient-document-engine:///doc1" :=
  ⟨(read_resource_three_calls okBackend "nutrient-document-engine:///doc1").1,
   (read_resource_three_calls okBackend
      "nutrient-document-engine:///doc1").2.1 rfl⟩

/-- C2 counterexample: with the provided cursor being the empty string
and the backend reporting the empty string as its next-page token, the
handler forwards no page parameter at all (the cursor is not forwarded
verbatim) and returns an absent nextCursor (not the reported token),
because both values are falsy in JavaScript. -/
theorem list_resources_cursor_counterexample :
    (listResources emptyTokenBackend (some "")).fst =
      [BackendCall.listDocuments none none] ∧
    (listResources emptyTokenBackend (some "")).snd =
      Except.ok { resources := [], nextCursor := none } ∧
    [BackendCall.listDocuments none none] ≠
      [BackendCall.listDocuments (some "") none] ∧
    (Except.ok { resources := [], nextCursor := none } :
        Except String ListResourcesResult) ≠
      Except.ok { resources := [], nextCursor := some "" } :=
  ⟨rfl, rfl, by simp, by simp⟩

/-- C2 amended: a provided nonempty cursor is forwarded verbatim as the
page parameter, while a missing or empty cursor yields no page
parameter; on success the returned nextCursor equals the backend
next-page token when that token is present and nonempty, and is absent
when the backend reports no token or an empty one. -/
theorem list_resources_cursor_spec (b : Backend) (cursor : Option String) :
    (∀ s, cursor = some s → s ≠ "" →
      (listResources b cursor).fst =
        [BackendCall.listDocuments (some s) none]) ∧
    ((cursor = none ∨ cursor = some "") →
      (listResources b cursor).fst =
        [BackendCall.listDocuments none none]) ∧
    (∀ resp, b.listDocuments (pageParam cursor) none = Except.ok resp →
      (listResources b cursor).snd =
        Except.ok { resources := resp.data.map resourceOf
                    nextCursor := jsOrUndef resp.next_page } ∧
      ((resp.next_page = none ∨ resp.next_page = some "") →
        jsOrUndef resp.next_page = none) ∧
      (∀ t, resp.next_page = some t → t ≠ "" →
        jsOrUndef resp.next_page = some t)) := by
  refine ⟨?_, ?_, ?_⟩
  · intro s hs hne
    subst hs
    have hp : pageParam (some s) = some s := by
      simp [pageParam, jsOrUndef, hne]
    rw [listResources, hp]
    cases h : b.listDocuments (some s) none with
    | ok resp => simp [h]
    | error e => simp [h]
  · intro hc
    have hp : pageParam cursor = none := by
      rcases hc with hc | hc <;> subst hc <;> simp [pageParam, jsOrUndef]
    rw [listResources, hp]
    cases h : b.listDocuments none none with
    | ok resp => simp [h]
    | error e => simp [h]
  · intro resp hresp
    refine ⟨by simp [listResources, hresp], ?_, ?_⟩
    · intro hnp
      rcases hnp with hnp | hnp <;> simp [jsOrUndef, hnp]
    · intro t ht hne
      simp [jsOrUndef, ht, hne]

/-- C2 witness: the amended theorem evaluated at a nonempty cursor and a
backend reporting a nonempty next-page token. -/
theorem list_resources_cursor_spec_witness :
    (listResources okBackend (some "c1")).fst =
      [BackendCall.listDocuments (some "c1") none] ∧
    okBackend.listDocuments (pageParam (some "c1")) none =
      Except.ok { data := [sampleDoc, untitledDoc], next_page := some "p2" } ∧
    (listResources okBackend (some "c1")).snd =
      Except.ok { resources := [resourceOf sampleDoc, resourceOf untitledDoc]
                  nextCursor := jsOrUndef (some "p2") } :=
  ⟨(list_resources_cursor_spec okBackend (some "c1")).1 "c1" rfl (by decide),
   rfl,
   ((list_resources_cursor_spec okBackend (some "c1")).2.2
      { data := [sampleDoc, untitledDoc], next_page := some "p2" } rfl).1⟩

/-- C3 counterexample: on a uri that contains the scheme but does not
begin with it, the source computes the uri with the first occurrence of
the scheme removed, which differs from the uri with the prefix
stripped (the latter leaves such a uri unchanged). -/
theorem document_id_strip_counterexample :
    documentIdOf "abcnutrient-document-engine:///doc1" = "abcdoc1" ∧
    claimedStripOfUri "abcnutrient-document-engine:///doc1" =
      "abcnutrient-document-engine:///doc1" ∧
    ("abcdoc1" : String) ≠ "abcnutrient-document-engine:///doc1" :=
  ⟨by decide, by decide, by decide⟩

/-- C3 amended: the document id used in every backend call of
read-resource equals the uri with the first occurrence of the substring
nutrient-document-engine:/// removed, wherever it occurs, with no
further validation or decoding; when the uri begins with that prefix
this coincides with stripping the prefix. -/
theorem read_resource_document_id (b : Backend) (uri : String) :
    (∃ n, (readResource b uri).fst = (fullReadCalls uri).take n) ∧
    (∀ c, c ∈ (readResource b uri).fst →
      callDocId c = some (documentIdOf uri)) ∧
    (uriScheme.data.isPrefixOf uri.data = true →
      documentIdOf uri = claimedStripOfUri uri) := by
  refine ⟨?_, ?_, ?_⟩
  · cases hd : b.getDocument (documentIdOf uri) with
    | error e => exact ⟨1, by simp [readResource, hd, fullReadCalls]⟩
    | ok document =>
      cases hl : b.getLayers (documentIdOf uri) with
      | error e => exact ⟨2, by simp [readResource, hd, hl, fullReadCalls]⟩
      | ok layers =>
        cases ha : b.getAnnotations (documentIdOf uri) with
        | error e =>
          exact ⟨3, by simp [readResource, hd, hl, ha, fullReadCalls]⟩
        | ok annots =>
          exact ⟨3, by simp [readResource, hd, hl, ha, fullReadCalls]⟩
  · intro c hc
    cases hd : b.getDocument (documentIdOf uri) with
    | error e =>
      simp [readResource, hd] at hc
      subst hc
      rfl
    | ok document =>
      cases hl : b.getLayers (documentIdOf uri) with
      | error e =>
        simp [readResource, hd, hl] at hc
        rcases hc with rfl | rfl <;> rfl
      | ok layers =>
        cases ha : b.getAnnotations (documentIdOf uri) with
        | error e =>
          simp [readResource, hd, hl, ha] at hc
          rcases hc with rfl | rfl | rfl <;> rfl
        | ok annots =>
          simp [readResource, hd, hl, ha] at hc
          rcases hc with rfl | rfl | rfl <;> rfl
  · intro h
    have hs : removeOnce uriScheme.data uri.data =
        uri.data.drop uriScheme.data.length :=
      removeOnce_of_isPrefixOf _ _ h
    simp [documentIdOf, jsReplaceFirst, claimedStripOfUri, h, hs]

/-- C3 witness: the amended theorem evaluated at a well-formed uri. -/
theorem read_resource_document_id_witness :
    uriScheme.data.isPrefixOf
      ("nutrient-document-engine:///doc1" : String).data = true ∧
    documentIdOf "nutrient-document-engine:///doc1" =
      claimedStripOfUri "nutrient-document-engine:///doc1" :=
  ⟨by decide,
   (read_resource_document_id okBackend
      "nutrient-document-engine:///doc1").2.2 (by decide)⟩

/-- C4: the display name equals the synthesized Document id string
exactly when the title is absent or empty, and the title itself
otherwise; the list-resources descriptor name and the search result
line are both built from this display name. -/
theorem display_name_fallback (doc : Document) :
    ((doc.attributes.title = none ∨ doc.attributes.title = some "") →
      displayName doc = "Document " ++ doc.id) ∧
    (∀ t, doc.attributes.title = some t → t ≠ "" → displayName doc = t) ∧
    (resourceOf doc).name = displayName doc ∧
    searchLine doc = displayName doc ++ " (ID: " ++ doc.id ++ ")" := by
  refine ⟨?_, ?_, rfl, rfl⟩
  · intro h
    rcases h with h | h <;> simp [displayName, jsOr, h]
  · intro t ht hne
    simp [displayName, jsOr, ht, hne]

/-- C4 witness: the fallback evaluated at a document with no title. -/
theorem display_name_fallback_witness :
    untitledDoc.attributes.title = none ∧
    displayName untitledDoc = "Document " ++ untitledDoc.id :=
  ⟨rfl, (display_name_fallback untitledDoc).1 (Or.inl rfl)⟩

/-- C5: for the search and create-annotation tools the handler always
returns a normal result (it never raises for these names), and a
backend failure yields the error-flagged result with the fixed apology
text of the respective branch. -/
theorem tool_backend_failure_flagged
    (b : Backend) (args : Option ToolArguments) :
    (∃ r, (callTool b "search" args).snd = Except.ok r) ∧
    (∃ r, (callTool b "create_annotation" args).snd = Except.ok r) ∧
    (b.listDocuments none (args.bind ToolArguments.query) =
        Except.error () →
      (callTool b "search" args).snd =
        Except.ok { content := [{ type := "text", text := searchFailText }]
                    isError := true }) ∧
    (∀ a, args = some a →
      b.createAnnot a.documentId (annotBody a) = Except.error () →
      (callTool b "create_annotation" args).snd =
        Except.ok { content := [{ type := "text", text := annotFailText }]
                    isError := true }) := by
  have hne : ("create_annotation" : String) ≠ "search" := by decide
  refine ⟨?_, ?_, ?_, ?_⟩
  · cases h : b.listDocuments none (args.bind ToolArguments.query) with
    | ok resp => exact ⟨_, by (simp [callTool, h]; rfl)⟩
    | error e => exact ⟨_, by (simp [callTool, h]; rfl)⟩
  · cases args with
    | none => exact ⟨_, by (simp [callTool, hne]; rfl)⟩
    | some a =>
      cases h : b.createAnnot a.documentId (annotBody a) with
      | ok ann => exact ⟨_, by (simp [callTool, hne, h]; rfl)⟩
      | error e => exact ⟨_, by (simp [callTool, hne, h]; rfl)⟩
  · intro h
    simp [callTool, h]
  · intro a ha h
    subst ha
    simp [callTool, hne, h]

/-- C5 witness: both flagged-failure results evaluated on the backend
that fails every call. -/
theorem tool_backend_failure_flagged_witness :
    failBackend.listDocuments none
      ((some { query := some "q", documentId := "", type := "",
               page := 0, content := JVal.null } :
          Option ToolArguments).bind ToolArguments.query) =
      Except.error () ∧
    (callTool failBackend "search"
        (some { query := some "q", documentId := "", type := "",
                page := 0, content := JVal.null })).snd =
      Except.ok { content := [{ type := "text", text := searchFailText }]
                  isError := true } ∧
    (callTool failBackend "create_annotation"
        (some { query := some "q", documentId := "", type := "",
                page := 0, content := JVal.null })).snd =
      Except.ok { content := [{ type := "text", text := annotFailText }]
                  isError := true } :=
  ⟨rfl,
   (tool_backend_failure_flagged failBackend
      (some { query := some "q", documentId := "", type := "",
              page := 0, content := JVal.null })).2.2.1 rfl,
   (tool_backend_failure_flagged failBackend
      (some { query := some "q", documentId := "", type := "",
              page := 0, content := JVal.null })).2.2.2
     { query := some "q", documentId := "", type := "",
       page := 0, content := JVal.null } rfl rfl⟩

/-- C6: any tool name other than search and create_annotation makes the
handler throw Tool not found, returning no flagged result and issuing
no backend call. -/
theorem unknown_tool_throws (b : Backend) (name : String)
    (args : Option ToolArguments)
    (h1 : name ≠ "search") (h2 : name ≠ "create_annotation") :
    callTool b name args = ([], Except.error "Tool not found") := by
  simp [callTool, h1, h2]

/-- C6 witness: the theorem evaluated at the tool name unknown_tool. -/
theorem unknown_tool_throws_witness :
    ("unknown_tool" : String) ≠ "search" ∧
    ("unknown_tool" : String) ≠ "create_annotation" ∧
    callTool failBackend "unknown_tool" none =
      ([], Except.error "Tool not found") :=
  ⟨by decide, by decide,
   unknown_tool_throws failBackend "unknown_tool" none
     (by decide) (by decide)⟩

/-- The arguments of the create-annotation example of the spec. -/
def specArgs : ToolArguments :=
  { query := none, documentId := "abc123", type := "note", page := 1
    content := JVal.obj [("text", JVal.str "hi")] }

/-- Search arguments carrying the query invoice. -/
def invoiceArgs : ToolArguments :=
  { query := some "invoice", documentId := "", type := "", page := 0
    content := JVal.null }

/-- Create-annotation arguments violating the declared schema: the type
is outside the enumeration and the page is not 1-based. -/
def bogusArgs : ToolArguments :=
  { query := none, documentId := "d", type := "bogus", page := 0
    content := JVal.null }

/-- C7: a create-annotation invocation issues exactly one POST to the
per-document endpoint whose body is exactly the JSON-API envelope with
type annotations and the caller attributes, and on success the returned
text contains the backend-assigned annotation id. -/
theorem create_annotation_post (b : Backend) (a : ToolArguments) :
    (callTool b "create_annotation" (some a)).fst =
      [BackendCall.createAnnot a.documentId (annotBody a)] ∧
    annotBody a =
      { data :=
          { type := "annotations"
            attributes :=
              { type := a.type, page := a.page, content := a.content } } } ∧
    (∀ ann, b.createAnnot a.documentId (annotBody a) = Except.ok ann →
      (callTool b "create_annotation" (some a)).snd =
        Except.ok
          { content :=
              [{ type := "text"
                 text := "Successfully created " ++ a.type ++
                   " annotation with ID: " ++ ann.id }]
            isError := false } ∧
      ∃ s₁ s₂, "Successfully created " ++ a.type ++
          " annotation with ID: " ++ ann.id = s₁ ++ ann.id ++ s₂) := by
  have hne : ("create_annotation" : String) ≠ "search" := by decide
  refine ⟨?_, rfl, ?_⟩
  · cases h : b.createAnnot a.documentId (annotBody a) with
    | ok ann => simp [callTool, hne, h]
    | error e => simp [callTool, hne, h]
  · intro ann h
    refine ⟨by simp [callTool, hne, h], ?_⟩
    refine ⟨"Successfully created " ++ a.type ++ " annotation with ID: ",
            "", ?_⟩
    rw [String.append_empty]

/-- C7 witness: the theorem evaluated at the spec example arguments on
a backend that assigns the id ann1. -/
theorem create_annotation_post_witness :
    okBackend.createAnnot specArgs.documentId (annotBody specArgs) =
      Except.ok { id := "ann1" } ∧
    (callTool okBackend "create_annotation" (some specArgs)).fst =
      [BackendCall.createAnnot "abc123" (annotBody specArgs)] ∧
    (callTool okBackend "create_annotation" (some specArgs)).snd =
      Except.ok
        { content :=
            [{ type := "text"
               text := "Successfully created note annotation with ID: ann1" }]
          isError := false } :=
  ⟨rfl, (create_annotation_post okBackend specArgs).1,
   ((create_annotation_post okBackend specArgs).2.2 { id := "ann1" } rfl).1⟩

/-- C8: on a successful search the result text is the count line Found
n documents followed by one line per returned document, joined by
newlines in backend order, with no error flag. -/
theorem search_success_text (b : Backend) (args : Option ToolArguments)
    (resp : ListResponse)
    (h : b.listDocuments none (args.bind ToolArguments.query) =
      Except.ok resp) :
    (callTool b "search" args).snd =
      Except.ok
        { content :=
            [{ type := "text"
               text := "Found " ++ toString resp.data.length ++
                 " documents:\n" ++
                 String.intercalate "\n" (resp.data.map searchLine) }]
          isError := false } ∧
    (resp.data.map searchLine).length = resp.data.length := by
  constructor
  · simp [callTool, h, documentList]
  · simp

/-- C8 witness: the theorem evaluated on a backend returning two
documents for the query invoice. -/
theorem search_success_text_witness :
    twoDocsBackend.listDocuments none
      ((some invoiceArgs : Option ToolArguments).bind ToolArguments.query) =
      Except.ok { data := [sampleDoc, untitledDoc], next_page := none } ∧
    (callTool twoDocsBackend "search" (some invoiceArgs)).snd =
      Except.ok
        { content :=
            [{ type := "text"
               text :=
                 "Found 2 documents:\nReport (ID: doc1)\nDocument doc2 (ID: doc2)" }]
          isError := false } :=
  ⟨rfl,
   (search_success_text twoDocsBackend (some invoiceArgs)
      { data := [sampleDoc, untitledDoc], next_page := none } rfl).1⟩

/-- C9: search performs no local validation of its arguments: with a
missing query field or a missing arguments object, the listing call is
still issued with an absent filter query, and the handler still returns
a normal result rather than failing before the call. -/
theorem search_no_validation (b : Backend) (args : Option ToolArguments)
    (h : args.bind ToolArguments.query = none) :
    (callTool b "search" args).fst =
      [BackendCall.listDocuments none none] ∧
    ∃ r, (callTool b "search" args).snd = Except.ok r := by
  constructor
  · cases hb : b.listDocuments none none with
    | ok resp => simp [callTool, h, hb]
    | error e => simp [callTool, h, hb]
  · cases hb : b.listDocuments none none with
    | ok resp => exact ⟨_, by (simp [callTool, h, hb]; rfl)⟩
    | error e => exact ⟨_, by (simp [callTool, h, hb]; rfl)⟩

/-- C9 witness: the theorem evaluated with a missing arguments object
on the failing backend: the listing call is still issued. -/
theorem search_no_validation_witness :
    ((none : Option ToolArguments).bind ToolArguments.query = none) ∧
    (callTool failBackend "search" none).fst =
      [BackendCall.listDocuments none none] :=
  ⟨rfl, (search_no_validation failBackend none rfl).1⟩

/-- C10: create-annotation performs no local validation: for every
arguments object the type, page and content values are forwarded
verbatim in the POST body, including a type outside the declared
enumeration or a page that is not 1-based, and no local error is
raised. -/
theorem create_annotation_no_validation (b : Backend) (a : ToolArguments) :
    (callTool b "create_annotation" (some a)).fst =
      [BackendCall.createAnnot a.documentId (annotBody a)] ∧
    (annotBody a).data.attributes.type = a.type ∧
    (annotBody a).data.attributes.page = a.page ∧
    (annotBody a).data.attributes.content = a.content ∧
    ∃ r, (callTool b "create_annotation" (some a)).snd = Except.ok r := by
  have hne : ("create_annotation" : String) ≠ "search" := by decide
  refine ⟨?_, rfl, rfl, rfl, ?_⟩
  · cases h : b.createAnnot a.documentId (annotBody a) with
    | ok ann => simp [callTool, hne, h]
    | error e => simp [callTool, hne, h]
  · cases h : b.createAnnot a.documentId (annotBody a) with
    | ok ann => exact ⟨_, by (simp [callTool, hne, h]; rfl)⟩
    | error e => exact ⟨_, by (simp [callTool, hne, h]; rfl)⟩

/-- C10 witness: the theorem evaluated at schema-violating arguments on
the failing backend: the POST is still issued verbatim and a normal
result is returned. -/
theorem create_annotation_no_validation_witness :
    (callTool failBackend "create_annotation" (some bogusArgs)).fst =
      [BackendCall.createAnnot "d" (annotBody bogusArgs)] ∧
    ∃ r, (callTool failBackend "create_annotation" (some bogusArgs)).snd =
      Except.ok r :=
  ⟨(create_annotation_no_validation failBackend bogusArgs).1,
   (create_annotation_no_validation failBackend bogusArgs).2.2.2.2⟩

end NDE
